import Mathlib

/-!
Shallow embedding of the order workflow of the medimart pharmacy backend
(`src/app/modules/order/order.services.ts` and `src/app/modules/order/order.utils.ts`).

Stores (Mongo collections) are modelled as lists of documents; a service call
is a pure function from the store state to `Except AppError (Store × result)`.
An `Except.error` result models a thrown `AppError` after `session.abortTransaction()`,
so the store is unchanged on error, matching the transactional semantics of the
source.  Monetary values are exact rationals; ids are natural numbers.  The
randomly generated order id, transaction id, fresh Mongo `_id` and the external
Cloudinary upload are passed in as parameters, which keeps the functions
deterministic and executable.
-/

namespace MediMart

inductive DiscountType where
  | PERCENTAGE
  | FLAT
deriving DecidableEq, Repr

inductive OrderStatus where
  | PLACED
  | CONFIRMED
  | SHIPPED
  | DELIVERED
  | CANCELLED
deriving DecidableEq, Repr

inductive PaymentStatus where
  | PENDING
  | PAID
  | CANCELLED
deriving DecidableEq, Repr

inductive PaymentMethod where
  | cash_on_delivery
  | online
deriving DecidableEq, Repr

inductive UserStatus where
  | ACTIVE
  | INACTIVE
deriving DecidableEq, Repr

/-- Model of `AppError(statusCode, message)` from `src/app/errors/AppError`. -/
structure AppError where
  statusCode : Nat
  message : String
deriving DecidableEq, Repr

/-- A catalog product document (`product.model`): the fields the order
workflow reads and writes. -/
structure Product where
  id : Nat
  name : String
  price : ℚ
  dosage : String
  discount : ℚ
  discount_type : DiscountType
  stock : Int
  in_stock : Bool
  requires_prescription : Bool
  is_deleted : Bool
deriving DecidableEq, Repr

/-- A user document: the fields `CreateOrder` queries on. -/
structure UserDoc where
  id : Nat
  email : String
  status : UserStatus
  is_deleted : Bool
deriving DecidableEq, Repr

/-- One element of the parsed `products` JSON payload of `CreateOrder`. -/
structure OrderItem where
  product_id : Nat
  quantity : Int
deriving DecidableEq, Repr

/-- An embedded order line item: the snapshot of a product taken at order
creation time. -/
structure OrderItemLine where
  product_id : Nat
  name : String
  price : ℚ
  dosage : String
  discount : ℚ
  discount_type : DiscountType
  quantity : Int
  requires_prescription : Bool
deriving DecidableEq, Repr

/-- An order document. `id` is the Mongo `_id`; `order_id` is the 6-char
public code. -/
structure OrderDoc where
  id : Nat
  order_id : String
  customer_id : Nat
  products : List OrderItemLine
  payment_method : PaymentMethod
  prescription : Option String
  subtotal : ℚ
  delivery_charge : ℚ
  grand_total : ℚ
  transaction_id : String
  order_status : OrderStatus
  payment_status : PaymentStatus
deriving DecidableEq, Repr

/-- A payment document, created together with the order. -/
structure PaymentDoc where
  order_id : Nat
  amount : ℚ
  transaction_id : String
  payment_status : PaymentStatus
  payment_gateway_data : Option String
deriving DecidableEq, Repr

/-- The uploaded prescription file (`FileInterface`); only its identity
matters to the workflow. -/
structure FileData where
  filename : String
deriving DecidableEq, Repr

/-- The database state: the four collections the order workflow touches. -/
structure Store where
  users : List UserDoc
  products : List Product
  orders : List OrderDoc
  payments : List PaymentDoc
deriving DecidableEq, Repr

/-- Model of `OrderUtils.calculateDiscountedPrice` (`order.utils`): JS guards on
`discount && discountType`, so a zero discount skips both branches; the
result is clamped at 0 on return. -/
def calculateDiscountedPrice (price discount : ℚ) (discountType : DiscountType) : ℚ :=
  let finalPrice :=
    if discount ≠ 0 then
      match discountType with
      | .PERCENTAGE => price - price * discount / 100
      | .FLAT => price - discount
    else price
  if finalPrice < 0 then 0 else finalPrice

/-- The `Product.find({_id: {$in: productIds}, is_deleted: false})` query of
`CreateOrder`. -/
def resolveProducts (prods : List Product) (productIds : List Nat) : List Product :=
  prods.filter (fun p => decide (p.id ∈ productIds) && !p.is_deleted)

/-- The snapshot line item built for one product inside the
`requestedProducts.map` loop of `CreateOrder`. -/
def mkLineItem (p : Product) (it : OrderItem) : OrderItemLine :=
  { product_id := p.id
    name := p.name
    price := p.price
    dosage := p.dosage
    discount := p.discount
    discount_type := p.discount_type
    quantity := it.quantity
    requires_prescription := p.requires_prescription }

/-- The `requestedProducts.map` loop of `CreateOrder`: per product it finds
the matching order item, throws `400 "Product out of stock"` when there is
none or the stock is short, and otherwise accumulates the subtotal, the
pending stock updates `(productId, newStock)` and the snapshot line items. -/
def buildOrderLines (orderItems : List OrderItem) :
    List Product → Except AppError (ℚ × List (Nat × Int) × List OrderItemLine)
  | [] => .ok (0, [], [])
  | p :: rest =>
    match orderItems.find? (fun it => decide (it.product_id = p.id)) with
    | none => .error ⟨400, "Product out of stock"⟩
    | some it =>
      if p.stock < it.quantity then .error ⟨400, "Product out of stock"⟩
      else
        match buildOrderLines orderItems rest with
        | .error e => .error e
        | .ok (sub, ups, lines) =>
          .ok (calculateDiscountedPrice p.price p.discount p.discount_type * (it.quantity : ℚ) + sub,
               (p.id, p.stock - it.quantity) :: ups,
               mkLineItem p it :: lines)

/-- Model of the `Product.updateOne` stock write of `CreateOrder`, setting `stock := newStock` and `in_stock := newStock > 0`:
updates the first document matching the id. -/
def setStockFirst : List Product → Nat → Int → List Product
  | [], _, _ => []
  | p :: rest, pid, ns =>
    if p.id = pid then { p with stock := ns, in_stock := decide (0 < ns) } :: rest
    else p :: setStockFirst rest pid ns

/-- The `Promise.all(stockUpdates.map(...))` of `CreateOrder`: apply every
pending `(productId, newStock)` write. -/
def applyStockUpdates (prods : List Product) : List (Nat × Int) → List Product
  | [] => prods
  | (pid, ns) :: rest => applyStockUpdates (setStockFirst prods pid ns) rest

/-- Model of `OrderService.CreateOrder`.  `upload` models `uploadToCloudinary`,
returning the `secure_url` for a file and a `public_id`; `order_id`,
`transaction_id` and the fresh Mongo `_id` `newId` are the pre-generated
random values. -/
def CreateOrder (st : Store) (userEmail : String) (orderItems : List OrderItem)
    (file : Option FileData) (payment_method : PaymentMethod)
    (upload : FileData → String → String)
    (order_id transaction_id : String) (newId : Nat) :
    Except AppError (Store × OrderDoc) :=
  match st.users.find? (fun u =>
      decide (u.email = userEmail ∧ u.status = UserStatus.ACTIVE ∧ u.is_deleted = false)) with
  | none => .error ⟨401, "User not found"⟩
  | some requestedUser =>
    let productIds := orderItems.map (·.product_id)
    let requestedProducts := resolveProducts st.products productIds
    if requestedProducts.length ≠ productIds.length then
      .error ⟨400, "Product not found"⟩
    else
      match (if requestedProducts.any (·.requires_prescription) then
               match file with
               | none => Except.error (⟨400, "Prescription required"⟩ : AppError)
               | some f => Except.ok (some (upload f order_id))
             else Except.ok none) with
      | .error e => .error e
      | .ok prescription =>
        match buildOrderLines orderItems requestedProducts with
        | .error e => .error e
        | .ok (subtotal, stockUpdates, orderProducts) =>
          let delivery_charge : ℚ := if subtotal > 1000 then 0 else 50
          let grand_total := subtotal + delivery_charge
          let order : OrderDoc :=
            { id := newId
              order_id := order_id
              customer_id := requestedUser.id
              products := orderProducts
              payment_method := payment_method
              prescription := prescription
              subtotal := subtotal
              delivery_charge := delivery_charge
              grand_total := grand_total
              transaction_id := transaction_id
              order_status := .PLACED
              payment_status := .PENDING }
          let payment : PaymentDoc :=
            { order_id := newId
              amount := grand_total
              transaction_id := transaction_id
              payment_status := .PENDING
              payment_gateway_data := none }
          .ok ({ st with
                  orders := st.orders ++ [order]
                  products := applyStockUpdates st.products stockUpdates
                  payments := st.payments ++ [payment] },
               order)

/-- Model of `OrderConstants.OrderStatus`: the list of valid status strings. -/
def orderStatusList : List OrderStatus :=
  [.PLACED, .CONFIRMED, .SHIPPED, .DELIVERED, .CANCELLED]

/-- The `invalidTransitions` table of `UpdateOrderStatus`: indexed by the
CURRENT status, listing the forbidden TARGET statuses. -/
def invalidTransitions : OrderStatus → List OrderStatus
  | .PLACED => []
  | .CONFIRMED => []
  | .SHIPPED => [.PLACED, .CONFIRMED]
  | .DELIVERED => [.PLACED, .CONFIRMED, .SHIPPED, .CANCELLED]
  | .CANCELLED => [.DELIVERED, .SHIPPED]

/-- Model of the `Payment.updateOne` write of the cancellation branch, setting `payment_status := CANCELLED` and clearing `payment_gateway_data`: updates the first matching payment. -/
def cancelPaymentFirst : List PaymentDoc → Nat → List PaymentDoc
  | [], _ => []
  | pay :: rest, oid =>
    if pay.order_id = oid then
      { pay with payment_status := .CANCELLED, payment_gateway_data := none } :: rest
    else pay :: cancelPaymentFirst rest oid

/-- Model of the `Product.updateOne` restock write of the cancellation branch, `$inc stock by quantity`: increments
the stock of the first matching product.  Note: `in_stock` is NOT touched. -/
def incStockFirst : List Product → Nat → Int → List Product
  | [], _, _ => []
  | p :: rest, pid, q =>
    if p.id = pid then { p with stock := p.stock + q } :: rest
    else p :: incStockFirst rest pid q

/-- The `Promise.all(order.products.map(...))` of the `CANCELLED` branch:
restock every line item's quantity. -/
def restockLines (prods : List Product) : List OrderItemLine → List Product
  | [] => prods
  | l :: rest => restockLines (incStockFirst prods l.product_id l.quantity) rest

/-- Model of `order.save`: replace the first order document with the same
`_id`. -/
def saveOrder : List OrderDoc → OrderDoc → List OrderDoc
  | [], _ => []
  | o :: rest, u => if o.id = u.id then u :: rest else o :: saveOrder rest u

/-- Model of `OrderService.UpdateOrderStatus`: find the order, reject invalid targets
and forbidden transitions, run the per-target `switch` (guards and side
effects on the order document and the payment/product collections), then set
`order_status` and save. -/
def UpdateOrderStatus (st : Store) (id : Nat) (status : OrderStatus) :
    Except AppError (Store × OrderDoc) :=
  match st.orders.find? (fun o => decide (o.id = id)) with
  | none => .error ⟨404, "Order not found"⟩
  | some order =>
    if ¬ (status ∈ orderStatusList) then .error ⟨400, "Invalid order status"⟩
    else if status ∈ invalidTransitions order.order_status then
      .error ⟨400, "Invalid status change"⟩
    else
      match (match status with
             | .CONFIRMED =>
               if order.products.any (·.requires_prescription) ∧ order.prescription = none then
                 Except.error (⟨400, "Cannot confirm order without prescription"⟩ : AppError)
               else Except.ok (order, st.payments, st.products)
             | .SHIPPED =>
               if order.payment_method ≠ .cash_on_delivery ∧ order.payment_status ≠ .PAID then
                 Except.error (⟨400, "Cannot ship an order with incomplete payment"⟩ : AppError)
               else Except.ok (order, st.payments, st.products)
             | .DELIVERED =>
               if order.payment_method = PaymentMethod.cash_on_delivery then
                 Except.ok ({ order with payment_status := .PAID }, st.payments, st.products)
               else Except.ok (order, st.payments, st.products)
             | .CANCELLED =>
               if order.payment_status = PaymentStatus.PAID then
                 Except.ok ({ order with payment_status := .CANCELLED },
                            cancelPaymentFirst st.payments order.id,
                            restockLines st.products order.products)
               else Except.ok (order, st.payments, st.products)
             | .PLACED => Except.ok (order, st.payments, st.products)) with
      | .error e => .error e
      | .ok (order2, pays, prods) =>
        let updatedOrder := { order2 with order_status := status }
        .ok ({ st with
                orders := saveOrder st.orders updatedOrder
                payments := pays
                products := prods },
             updatedOrder)

/-- Holds when `in_stock == (stock > 0)`: the derived-flag invariant of the Product
data model. -/
def stockFlagOk (p : Product) : Bool :=
  p.in_stock == decide (0 < p.stock)

/-- Total quantity ordered for a given product id across the line items of
an order. -/
def orderedQty (lines : List OrderItemLine) (pid : Nat) : Int :=
  ((lines.filter (fun l => decide (l.product_id = pid))).map (·.quantity)).sum

/-! ### Sample data for concrete runs -/

/-- A deterministic stand-in for the Cloudinary upload: the returned URL is a
function of the file and the `public_id`. -/
def cdnUpload (f : FileData) (pid : String) : String :=
  "https://cdn.example/" ++ pid ++ "/" ++ f.filename

def aliceUser : UserDoc := ⟨1, "alice@example.com", .ACTIVE, false⟩

def paracetamol : Product :=
  ⟨1, "Paracetamol", 100, "500mg", 20, .PERCENTAGE, 10, true, false, false⟩

def omeprazole : Product :=
  ⟨2, "Omeprazole", 600, "20mg", 0, .FLAT, 5, true, true, false⟩

def baseStore : Store := ⟨[aliceUser], [paracetamol, omeprazole], [], []⟩

def napaLine : OrderItemLine :=
  ⟨1, "Paracetamol", 100, "500mg", 20, .PERCENTAGE, 5, false⟩

def codOrder : OrderDoc :=
  ⟨1, "ABC123", 1, [napaLine], .cash_on_delivery, none, 400, 50, 450,
   "TRX-A", .PLACED, .PENDING⟩

def codPayment : PaymentDoc := ⟨1, 450, "TRX-A", .PENDING, none⟩

def placedStore : Store := ⟨[aliceUser], [paracetamol], [codOrder], [codPayment]⟩

/-! ### Helper lemmas -/

instance {ε α : Type _} [DecidableEq ε] [DecidableEq α] : DecidableEq (Except ε α) :=
  fun x y =>
    match x, y with
    | .ok a, .ok b => decidable_of_iff (a = b) (by simp)
    | .ok _, .error _ => isFalse (by simp)
    | .error _, .ok _ => isFalse (by simp)
    | .error e, .error e2 => decidable_of_iff (e = e2) (by simp)

lemma clamp_eq_max (x : ℚ) : (if x < 0 then (0 : ℚ) else x) = max 0 x := by
  rcases lt_or_le x 0 with h | h
  · simp [h, max_eq_left h.le]
  · simp [not_lt.mpr h, max_eq_right h]

/-! ### Claims -/

/-- C1: for every order created by `CreateOrder`, the stored
`delivery_charge` is `0` when the subtotal is strictly greater than `1000`
and `50` otherwise, and the stored `grand_total` is
`subtotal + delivery_charge`. -/
theorem C1_grand_total_delivery_charge (st : Store) (userEmail : String)
    (orderItems : List OrderItem) (file : Option FileData) (pm : PaymentMethod)
    (upload : FileData → String → String) (oid tid : String) (nid : Nat) :
    match CreateOrder st userEmail orderItems file pm upload oid tid nid with
    | .ok (_, o) =>
        o.delivery_charge = (if o.subtotal > 1000 then 0 else 50) ∧
        o.grand_total = o.subtotal + o.delivery_charge
    | .error _ => True := by
  unfold CreateOrder
  cases hu : List.find? (fun u =>
      decide (u.email = userEmail ∧ u.status = UserStatus.ACTIVE ∧ u.is_deleted = false)) st.users with
  | none => exact trivial
  | some requestedUser =>
    dsimp only
    by_cases hlen : (resolveProducts st.products (List.map (fun x => x.product_id) orderItems)).length =
        (List.map (fun x => x.product_id) orderItems).length
    · rw [if_neg (not_not_intro hlen)]
      by_cases hrx : (resolveProducts st.products (List.map (fun x => x.product_id) orderItems)).any
          (fun x => x.requires_prescription) = true
      · rw [if_pos hrx]
        cases file with
        | none => exact trivial
        | some f =>
          dsimp only
          cases hb : buildOrderLines orderItems
              (resolveProducts st.products (List.map (fun x => x.product_id) orderItems)) with
          | error e => exact trivial
          | ok v =>
            obtain ⟨sub, ups, lines⟩ := v
            exact ⟨rfl, rfl⟩
      · rw [if_neg hrx]
        dsimp only
        cases hb : buildOrderLines orderItems
            (resolveProducts st.products (List.map (fun x => x.product_id) orderItems)) with
        | error e => exact trivial
        | ok v =>
          obtain ⟨sub, ups, lines⟩ := v
          exact ⟨rfl, rfl⟩
    · rw [if_pos hlen]
      exact trivial

/-- C2: `calculateDiscountedPrice` returns the percentage- or flat-discounted
price clamped below at `0`, so the result is never negative regardless of
discount magnitude or type. -/
theorem C2_discounted_price_clamped (price discount : ℚ) (dt : DiscountType) :
    calculateDiscountedPrice price discount dt =
      max 0 (match dt with
             | DiscountType.PERCENTAGE => price - price * discount / 100
             | DiscountType.FLAT => price - discount) ∧
    0 ≤ calculateDiscountedPrice price discount dt := by
  have h : calculateDiscountedPrice price discount dt =
      max 0 (match dt with
             | DiscountType.PERCENTAGE => price - price * discount / 100
             | DiscountType.FLAT => price - discount) := by
    unfold calculateDiscountedPrice
    simp only [clamp_eq_max]
    by_cases hd : discount = 0
    · subst hd
      cases dt <;> simp
    · simp [hd]
  exact ⟨h, h ▸ le_max_left 0 _⟩

/-- C8 counterexample: a request referencing product id `3`, which resolves
to no non-deleted product, is rejected with statusCode 400 ("BadRequest")
and message "Product not found" — not with the NotFound error (404). -/
theorem C8_counterexample_missing_product_status :
    CreateOrder baseStore "alice@example.com" [⟨3, 1⟩] none .cash_on_delivery
      cdnUpload "AAA111" "TRX-B" 9 = .error ⟨400, "Product not found"⟩ ∧
    (AppError.mk 400 "Product not found").statusCode ≠ 404 := by
  exact ⟨rfl, by decide⟩

/-- C8 amended: when some referenced product id does not resolve to a
non-deleted product, `CreateOrder` fails with the BadRequest error
`400 "Product not found"` (not NotFound). -/
theorem C8_missing_product_bad_request (st : Store) (userEmail : String)
    (orderItems : List OrderItem) (file : Option FileData) (pm : PaymentMethod)
    (upload : FileData → String → String) (oid tid : String) (nid : Nat)
    (u : UserDoc)
    (h1 : st.users.find? (fun u =>
        decide (u.email = userEmail ∧ u.status = UserStatus.ACTIVE ∧ u.is_deleted = false)) =
      some u)
    (h2 : (resolveProducts st.products (orderItems.map (·.product_id))).length ≠
      (orderItems.map (·.product_id)).length) :
    CreateOrder st userEmail orderItems file pm upload oid tid nid =
      .error ⟨400, "Product not found"⟩ := by
  unfold CreateOrder
  rw [h1]
  simp only [if_pos h2]

/-- The only error `buildOrderLines` (the per-line loop of `CreateOrder`)
can produce is the out-of-stock BadRequest. -/
lemma buildOrderLines_error_eq (orderItems : List OrderItem) :
    ∀ ps e, buildOrderLines orderItems ps = .error e →
      e = ⟨400, "Product out of stock"⟩ := by
  intro ps
  induction ps with
  | nil =>
    intro e h
    simp [buildOrderLines] at h
  | cons p rest ih =>
    intro e h
    simp only [buildOrderLines] at h
    cases hf : orderItems.find? (fun it => decide (it.product_id = p.id)) with
    | none =>
      rw [hf] at h
      injection h with h2
      exact h2.symm
    | some it =>
      rw [hf] at h
      dsimp only at h
      by_cases hs : p.stock < it.quantity
      · rw [if_pos hs] at h
        injection h with h2
        exact h2.symm
      · rw [if_neg hs] at h
        cases hb : buildOrderLines orderItems rest with
        | error e2 =>
          rw [hb] at h
          dsimp only at h
          injection h with h2
          exact h2 ▸ ih e2 hb
        | ok v =>
          obtain ⟨sub, ups, lines⟩ := v
          rw [hb] at h
          exact Except.noConfusion h

/-- When the order items carry pairwise distinct product ids, a successful
run of the per-line loop means no line's quantity exceeded its product's
stock. -/
lemma buildOrderLines_ok_sufficient (orderItems : List OrderItem)
    (hnd : (orderItems.map (·.product_id)).Nodup) :
    ∀ ps r, buildOrderLines orderItems ps = .ok r →
      ∀ p ∈ ps, ∀ it ∈ orderItems, it.product_id = p.id →
        ¬ p.stock < it.quantity := by
  intro ps
  induction ps with
  | nil =>
    intro r _ p hp
    exact absurd hp (List.not_mem_nil p)
  | cons q rest ih =>
    intro r h p hp it hit hpid
    simp only [buildOrderLines] at h
    cases hf : orderItems.find? (fun x => decide (x.product_id = q.id)) with
    | none =>
      rw [hf] at h
      exact Except.noConfusion h
    | some it0 =>
      rw [hf] at h
      dsimp only at h
      by_cases hs : q.stock < it0.quantity
      · rw [if_pos hs] at h
        exact Except.noConfusion h
      · rw [if_neg hs] at h
        cases hb : buildOrderLines orderItems rest with
        | error e2 =>
          rw [hb] at h
          exact Except.noConfusion h
        | ok v =>
          rcases List.mem_cons.mp hp with hpq | hprest
          · subst hpq
            have hit0mem : it0 ∈ orderItems := List.mem_of_find?_eq_some hf
            have hit0id : it0.product_id = p.id := by
              simpa using List.find?_some hf
            have : it = it0 :=
              List.inj_on_of_nodup_map hnd hit hit0mem (hpid.trans hit0id.symm)
            exact this ▸ hs
          · exact ih v hb p hprest it hit hpid

/-- C6: an order request whose line quantity exceeds the product's stock
fails with the BadRequest error "Product out of stock" (the transaction is
aborted, so an error result carries no store writes). The hypotheses state
that the earlier checks pass: the user resolves, every product id resolves,
and the prescription gate is satisfied; the item list carries distinct
product ids. -/
theorem C6_insufficient_stock_rejected (st : Store) (userEmail : String)
    (orderItems : List OrderItem) (file : Option FileData) (pm : PaymentMethod)
    (upload : FileData → String → String) (oid tid : String) (nid : Nat)
    (u : UserDoc)
    (h1 : st.users.find? (fun u =>
        decide (u.email = userEmail ∧ u.status = UserStatus.ACTIVE ∧ u.is_deleted = false)) =
      some u)
    (h2 : (resolveProducts st.products (orderItems.map (·.product_id))).length =
      (orderItems.map (·.product_id)).length)
    (h3 : (resolveProducts st.products (orderItems.map (·.product_id))).any
        (fun x => x.requires_prescription) = false ∨ file.isSome = true)
    (h4 : (orderItems.map (·.product_id)).Nodup)
    (h5 : ∃ p ∈ resolveProducts st.products (orderItems.map (·.product_id)),
        ∃ it ∈ orderItems, it.product_id = p.id ∧ p.stock < it.quantity) :
    CreateOrder st userEmail orderItems file pm upload oid tid nid =
      .error ⟨400, "Product out of stock"⟩ := by
  have hb0 : buildOrderLines orderItems
      (resolveProducts st.products (orderItems.map (·.product_id))) =
      .error ⟨400, "Product out of stock"⟩ := by
    cases hb : buildOrderLines orderItems
        (resolveProducts st.products (orderItems.map (·.product_id))) with
    | ok v =>
      exfalso
      obtain ⟨p, hp, it, hit, hpid, hlt⟩ := h5
      exact buildOrderLines_ok_sufficient orderItems h4 _ v hb p hp it hit hpid hlt
    | error e =>
      rw [buildOrderLines_error_eq orderItems _ e hb]
  unfold CreateOrder
  rw [h1]
  dsimp only
  rw [if_neg (not_not_intro h2)]
  by_cases hrx : (resolveProducts st.products (List.map (fun x => x.product_id) orderItems)).any
      (fun x => x.requires_prescription) = true
  · have hsome : file.isSome = true := by
      rcases h3 with h | h
      · rw [h] at hrx
        exact absurd hrx (by simp)
      · exact h
    obtain ⟨f, rfl⟩ : ∃ f, file = some f := by
      cases file with
      | none => simp at hsome
      | some f => exact ⟨f, rfl⟩
    rw [if_pos hrx]
    dsimp only
    rw [hb0]
  · rw [if_neg hrx]
    dsimp only
    rw [hb0]

/-- Witness for C6 at a concrete input: requesting 99 units of a product
with stock 10. -/
theorem C6_insufficient_stock_rejected_witness :
    CreateOrder baseStore "alice@example.com" [⟨1, 99⟩] none .cash_on_delivery
      cdnUpload "AAA114" "TRX-E" 12 = .error ⟨400, "Product out of stock"⟩ :=
  C6_insufficient_stock_rejected baseStore "alice@example.com" [⟨1, 99⟩] none
    .cash_on_delivery cdnUpload "AAA114" "TRX-E" 12 aliceUser rfl (by decide)
    (by decide) (by decide) (by decide)

/-- C7: when some resolved product requires a prescription, `CreateOrder`
with no file fails with BadRequest "Prescription required"; with a file (and
the stock checks passing) it succeeds and the created order stores the
upload reference keyed by the pre-generated order id. -/
theorem C7_prescription_gate (st : Store) (userEmail : String)
    (orderItems : List OrderItem) (pm : PaymentMethod)
    (upload : FileData → String → String) (oid tid : String) (nid : Nat)
    (u : UserDoc)
    (h1 : st.users.find? (fun u =>
        decide (u.email = userEmail ∧ u.status = UserStatus.ACTIVE ∧ u.is_deleted = false)) =
      some u)
    (h2 : (resolveProducts st.products (orderItems.map (·.product_id))).length =
      (orderItems.map (·.product_id)).length)
    (hrx : (resolveProducts st.products (orderItems.map (·.product_id))).any
        (fun x => x.requires_prescription) = true) :
    CreateOrder st userEmail orderItems none pm upload oid tid nid =
      .error ⟨400, "Prescription required"⟩ ∧
    ∀ f sub ups lines,
      buildOrderLines orderItems (resolveProducts st.products (orderItems.map (·.product_id))) =
        .ok (sub, ups, lines) →
      match CreateOrder st userEmail orderItems (some f) pm upload oid tid nid with
      | .ok (_, o) => o.prescription = some (upload f oid) ∧ o.order_id = oid
      | .error _ => False := by
  constructor
  · unfold CreateOrder
    rw [h1]
    dsimp only
    rw [if_neg (not_not_intro h2), if_pos hrx]
  · intro f sub ups lines hb
    unfold CreateOrder
    rw [h1]
    dsimp only
    rw [if_neg (not_not_intro h2), if_pos hrx]
    dsimp only
    rw [hb]
    exact ⟨rfl, rfl⟩

/-- Witness for C7 at a concrete input: one prescription-only product,
rejected without a file and accepted with one. -/
theorem C7_prescription_gate_witness :
    CreateOrder baseStore "alice@example.com" [⟨2, 1⟩] none .cash_on_delivery
      cdnUpload "AAA115" "TRX-F" 13 = .error ⟨400, "Prescription required"⟩ ∧
    (match CreateOrder baseStore "alice@example.com" [⟨2, 1⟩] (some ⟨"rx.png"⟩)
        .cash_on_delivery cdnUpload "AAA115" "TRX-F" 13 with
     | .ok (_, o) =>
        o.prescription = some (cdnUpload ⟨"rx.png"⟩ "AAA115") ∧ o.order_id = "AAA115"
     | .error _ => False) := by
  have h := C7_prescription_gate baseStore "alice@example.com" [⟨2, 1⟩]
    .cash_on_delivery cdnUpload "AAA115" "TRX-F" 13 aliceUser rfl (by decide) (by decide)
  exact ⟨h.1, h.2 ⟨"rx.png"⟩ 600 [(2, 4)] [mkLineItem omeprazole ⟨2, 1⟩]
    (by simp [buildOrderLines, resolveProducts, baseStore, omeprazole, paracetamol,
      calculateDiscountedPrice, mkLineItem])⟩

/-- Witness for C8 amended at a concrete input. -/
theorem C8_missing_product_bad_request_witness :
    CreateOrder baseStore "alice@example.com" [⟨1, 1⟩, ⟨3, 1⟩] none .cash_on_delivery
      cdnUpload "AAA112" "TRX-C" 10 = .error ⟨400, "Product not found"⟩ :=
  C8_missing_product_bad_request baseStore "alice@example.com" [⟨1, 1⟩, ⟨3, 1⟩]
    none .cash_on_delivery cdnUpload "AAA112" "TRX-C" 10 aliceUser rfl (by decide)

def paidOrder : OrderDoc :=
  { codOrder with order_status := .CONFIRMED, payment_status := .PAID }

def paidStore : Store := ⟨[aliceUser], [paracetamol], [paidOrder], [codPayment]⟩

def emptyStockProduct : Product := { paracetamol with stock := 0, in_stock := false }

def c5Store : Store := ⟨[aliceUser], [emptyStockProduct], [paidOrder], [codPayment]⟩

/-- Saving an order document replaces it at its position: a lookup by the
same id finds the saved document. -/
lemma saveOrder_find? (orders : List OrderDoc) (i : Nat) (order u : OrderDoc)
    (hfind : orders.find? (fun o => decide (o.id = i)) = some order)
    (hid : u.id = order.id) :
    (saveOrder orders u).find? (fun o => decide (o.id = i)) = some u := by
  induction orders with
  | nil => simp at hfind
  | cons o rest ih =>
    by_cases ho : o.id = i
    · rw [List.find?_cons_of_pos _ (by simp [ho])] at hfind
      injection hfind with h
      subst h
      unfold saveOrder
      rw [if_pos hid.symm]
      exact List.find?_cons_of_pos _ (by simp [hid, ho])
    · rw [List.find?_cons_of_neg _ (by simp [ho])] at hfind
      have horder : order.id = i := by simpa using List.find?_some hfind
      unfold saveOrder
      rw [if_neg (fun hh => ho (hh.trans (hid.trans horder)))]
      rw [List.find?_cons_of_neg _ (by simp [ho])]
      exact ih hfind

/-- Effect of the single-document stock increment on a lookup by id. -/
lemma incStockFirst_find? (prods : List Product) (pid : Nat) (q : Int) (x : Nat) :
    (incStockFirst prods pid q).find? (fun p => decide (p.id = x)) =
      if x = pid then
        (prods.find? (fun p => decide (p.id = x))).map
          (fun p => { p with stock := p.stock + q })
      else prods.find? (fun p => decide (p.id = x)) := by
  induction prods with
  | nil => simp [incStockFirst]
  | cons p rest ih =>
    unfold incStockFirst
    by_cases hp : p.id = pid
    · rw [if_pos hp]
      by_cases hx : x = pid
      · have hpx : p.id = x := by rw [hp, hx]
        simp [List.find?, hpx, hx]
      · have hpx : ¬ p.id = x := by
          rw [hp]
          exact fun hh => hx hh.symm
        simp [List.find?, hpx, hx]
    · rw [if_neg hp]
      by_cases hpx : p.id = x
      · have hx : ¬ x = pid := fun hh => hp (hpx.trans hh)
        simp [List.find?, hpx, hx]
      · simp only [List.find?, hpx, decide_eq_true_eq, if_neg]
        simp [hpx]
        exact ih

lemma orderedQty_nil (pid : Nat) : orderedQty [] pid = 0 := rfl

lemma orderedQty_cons (l : OrderItemLine) (rest : List OrderItemLine) (pid : Nat) :
    orderedQty (l :: rest) pid =
      (if l.product_id = pid then l.quantity else 0) + orderedQty rest pid := by
  unfold orderedQty
  by_cases h : l.product_id = pid
  · simp [List.filter_cons, h]
  · simp [List.filter_cons, h]

lemma stock_add_zero (p : Product) : { p with stock := p.stock + 0 } = p := by
  cases p
  simp

/-- The restock loop of the cancellation branch adds, per product id, the
total ordered quantity of the matching line items. -/
lemma restockLines_find? (lines : List OrderItemLine) :
    ∀ (prods : List Product) (x : Nat),
      (restockLines prods lines).find? (fun p => decide (p.id = x)) =
        (prods.find? (fun p => decide (p.id = x))).map
          (fun p => { p with stock := p.stock + orderedQty lines x }) := by
  induction lines with
  | nil =>
    intro prods x
    unfold restockLines
    cases hf : prods.find? (fun p => decide (p.id = x)) with
    | none => simp [hf]
    | some p => simp [hf, orderedQty, stock_add_zero]
  | cons l rest ih =>
    intro prods x
    unfold restockLines
    rw [ih (incStockFirst prods l.product_id l.quantity) x, incStockFirst_find?]
    by_cases hx : x = l.product_id
    · rw [if_pos hx]
      cases hf : prods.find? (fun p => decide (p.id = x)) with
      | none => simp
      | some p =>
        simp [orderedQty_cons, hx, add_assoc]
    · rw [if_neg hx]
      cases hf : prods.find? (fun p => decide (p.id = x)) with
      | none => simp
      | some p =>
        have : ¬ l.product_id = x := fun hh => hx hh.symm
        simp [orderedQty_cons, this]

/-- Effect of the cancellation payment write on a lookup by order id. -/
lemma cancelPaymentFirst_find? (pays : List PaymentDoc) (oid : Nat) :
    (cancelPaymentFirst pays oid).find? (fun pay => decide (pay.order_id = oid)) =
      (pays.find? (fun pay => decide (pay.order_id = oid))).map
        (fun pay =>
          { pay with payment_status := .CANCELLED, payment_gateway_data := none }) := by
  induction pays with
  | nil => simp [cancelPaymentFirst]
  | cons pay rest ih =>
    unfold cancelPaymentFirst
    by_cases h : pay.order_id = oid
    · rw [if_pos h]
      rw [List.find?_cons_of_pos _ (by simp [h]),
          List.find?_cons_of_pos (a := pay) _ (by simp [h])]
      simp
    · rw [if_neg h]
      rw [List.find?_cons_of_neg _ (by simp [h]),
          List.find?_cons_of_neg (a := pay) _ (by simp [h])]
      exact ih

/-- C4 counterexample: a PLACED cash-on-delivery order moves to SHIPPED
successfully — `UpdateOrderStatus` does not reject target SHIPPED from
PLACED, contrary to the claim that it fails with BadRequest. -/
theorem C4_counterexample_placed_ships :
    ((UpdateOrderStatus placedStore 1 .SHIPPED).toOption.map
      (fun r => r.2.order_status)) = some .SHIPPED := rfl

/-- C4 amended: the `invalidTransitions` table is keyed by the CURRENT
status and lists forbidden TARGETS. Its `SHIPPED: [PLACED, CONFIRMED]` row
therefore forbids moving an already-SHIPPED order back to PLACED or
CONFIRMED (BadRequest), while target SHIPPED from PLACED or CONFIRMED is
not forbidden by the table and succeeds whenever the payment guard
(cash-on-delivery or payment PAID) holds. -/
theorem C4_transition_table_keyed_by_current (st : Store) (id : Nat) (order : OrderDoc)
    (h1 : st.orders.find? (fun o => decide (o.id = id)) = some order) :
    (order.order_status = .SHIPPED →
      UpdateOrderStatus st id .PLACED = .error ⟨400, "Invalid status change"⟩ ∧
      UpdateOrderStatus st id .CONFIRMED = .error ⟨400, "Invalid status change"⟩) ∧
    ((order.order_status = .PLACED ∨ order.order_status = .CONFIRMED) →
      (order.payment_method = .cash_on_delivery ∨ order.payment_status = .PAID) →
      (UpdateOrderStatus st id .SHIPPED).isOk = true) := by
  constructor
  · intro hs
    constructor <;>
      simp [UpdateOrderStatus, h1, orderStatusList, invalidTransitions, hs]
  · intro hcur hpay
    rcases hcur with hc | hc <;> rcases hpay with hp | hp <;>
      simp [UpdateOrderStatus, h1, orderStatusList, invalidTransitions, hc, hp,
        Except.isOk, Except.toBool]

/-- Witness for C4 amended: a SHIPPED order rejects targets PLACED and
CONFIRMED, and a CONFIRMED cash-on-delivery order ships. -/
theorem C4_transition_table_keyed_by_current_witness :
    (UpdateOrderStatus ⟨[aliceUser], [paracetamol],
        [{ codOrder with order_status := .SHIPPED }], [codPayment]⟩ 1 .PLACED =
      .error ⟨400, "Invalid status change"⟩) ∧
    (UpdateOrderStatus ⟨[aliceUser], [paracetamol],
        [{ codOrder with order_status := .SHIPPED }], [codPayment]⟩ 1 .CONFIRMED =
      .error ⟨400, "Invalid status change"⟩) ∧
    (UpdateOrderStatus ⟨[aliceUser], [paracetamol],
        [{ codOrder with order_status := .CONFIRMED }], [codPayment]⟩ 1 .SHIPPED).isOk = true := by
  have ha := (C4_transition_table_keyed_by_current ⟨[aliceUser], [paracetamol],
    [{ codOrder with order_status := .SHIPPED }], [codPayment]⟩ 1
    { codOrder with order_status := .SHIPPED } rfl).1 rfl
  have hb := (C4_transition_table_keyed_by_current ⟨[aliceUser], [paracetamol],
    [{ codOrder with order_status := .CONFIRMED }], [codPayment]⟩ 1
    { codOrder with order_status := .CONFIRMED } rfl).2 (Or.inr rfl) (Or.inl rfl)
  exact ⟨ha.1, ha.2, hb⟩

/-- C5: the cancellation restock violates the `in_stock == (stock > 0)`
invariant. All products satisfy it before; cancelling the PAID order
restores stock 0 to 5 but leaves `in_stock` false, so the invariant fails
afterwards (the creation-time stock write does recompute the flag). -/
theorem C5_cancel_restock_breaks_stock_flag :
    c5Store.products.all stockFlagOk = true ∧
    ((UpdateOrderStatus c5Store 1 .CANCELLED).toOption.map
      (fun r => r.1.products.map (fun p => (p.stock, p.in_stock, stockFlagOk p)))) =
      some [(5, false, false)] :=
  ⟨rfl, rfl⟩

/-- C9: a successful transition to DELIVERED of a cash-on-delivery order
sets the order's `payment_status` to PAID, on the returned document and on
the saved one. -/
theorem C9_cod_delivered_marks_paid (st : Store) (id : Nat) (order : OrderDoc)
    (st2 : Store) (o2 : OrderDoc)
    (h1 : st.orders.find? (fun o => decide (o.id = id)) = some order)
    (h2 : order.payment_method = .cash_on_delivery)
    (h3 : UpdateOrderStatus st id .DELIVERED = .ok (st2, o2)) :
    o2.payment_status = .PAID ∧
    st2.orders.find? (fun o => decide (o.id = id)) = some o2 := by
  unfold UpdateOrderStatus at h3
  rw [h1] at h3
  try dsimp only at h3
  rw [if_neg (by simp [orderStatusList])] at h3
  by_cases hmem : OrderStatus.DELIVERED ∈ invalidTransitions order.order_status
  · rw [if_pos hmem] at h3
    exact Except.noConfusion h3
  · rw [if_neg hmem] at h3
    try dsimp only at h3
    rw [if_pos h2] at h3
    try dsimp only at h3
    injection h3 with hpair
    injection hpair with hst ho
    subst hst
    subst ho
    exact ⟨rfl, saveOrder_find? st.orders id order _ h1 rfl⟩

/-- Witness for C9: delivering a CONFIRMED cash-on-delivery order. -/
theorem C9_cod_delivered_marks_paid_witness :
    ({ paidOrder with
        payment_status := PaymentStatus.PAID,
        order_status := OrderStatus.DELIVERED } : OrderDoc).payment_status =
      PaymentStatus.PAID ∧
    (saveOrder paidStore.orders
        { paidOrder with payment_status := .PAID, order_status := .DELIVERED }).find?
      (fun o => decide (o.id = 1)) =
      some { paidOrder with payment_status := .PAID, order_status := .DELIVERED } :=
  C9_cod_delivered_marks_paid paidStore 1 paidOrder _ _ rfl rfl rfl

/-- C10: a successful cancellation of an order whose payment is not PAID
changes only the order's status: the returned document is the found order
with `order_status := CANCELLED`, and the user, product and payment
collections are untouched (no restock, no payment write). -/
theorem C10_cancel_unpaid_frame (st : Store) (id : Nat) (order : OrderDoc)
    (st2 : Store) (o2 : OrderDoc)
    (h1 : st.orders.find? (fun o => decide (o.id = id)) = some order)
    (h2 : order.payment_status ≠ .PAID)
    (h3 : UpdateOrderStatus st id .CANCELLED = .ok (st2, o2)) :
    o2 = { order with order_status := .CANCELLED } ∧
    st2.products = st.products ∧ st2.payments = st.payments ∧ st2.users = st.users := by
  unfold UpdateOrderStatus at h3
  rw [h1] at h3
  try dsimp only at h3
  rw [if_neg (by simp [orderStatusList])] at h3
  by_cases hmem : OrderStatus.CANCELLED ∈ invalidTransitions order.order_status
  · rw [if_pos hmem] at h3
    exact Except.noConfusion h3
  · rw [if_neg hmem] at h3
    try dsimp only at h3
    rw [if_neg h2] at h3
    try dsimp only at h3
    injection h3 with hpair
    injection hpair with hst ho
    subst hst
    subst ho
    exact ⟨rfl, rfl, rfl, rfl⟩

/-- Witness for C10: cancelling a PLACED order with PENDING payment. -/
theorem C10_cancel_unpaid_frame_witness :
    ({ codOrder with order_status := OrderStatus.CANCELLED } : OrderDoc) =
      { codOrder with order_status := OrderStatus.CANCELLED } ∧
    (placedStore.products : List Product) = placedStore.products ∧
    (placedStore.payments : List PaymentDoc) = placedStore.payments ∧
    (placedStore.users : List UserDoc) = placedStore.users := by
  have h := C10_cancel_unpaid_frame placedStore 1 codOrder
    { placedStore with
        orders := saveOrder placedStore.orders { codOrder with order_status := .CANCELLED } }
    { codOrder with order_status := .CANCELLED } rfl (by decide) rfl
  exact h

/-- C3: a successful cancellation of a PAID order (from a status whose row
does not forbid CANCELLED) returns the order with payment and order status
CANCELLED, increments every product's stock by the total quantity of its
line items (and leaves unreferenced products' stock unchanged, increment
0), and sets the associated payment record's status to CANCELLED. -/
theorem C3_cancel_paid_restocks (st : Store) (id : Nat) (order : OrderDoc)
    (h1 : st.orders.find? (fun o => decide (o.id = id)) = some order)
    (h2 : order.payment_status = .PAID)
    (h3 : OrderStatus.CANCELLED ∉ invalidTransitions order.order_status) :
    ∃ st2,
      UpdateOrderStatus st id .CANCELLED =
        .ok (st2, { order with payment_status := .CANCELLED, order_status := .CANCELLED }) ∧
      (∀ pid, st2.products.find? (fun p => decide (p.id = pid)) =
        (st.products.find? (fun p => decide (p.id = pid))).map
          (fun p => { p with stock := p.stock + orderedQty order.products pid })) ∧
      st2.payments.find? (fun pay => decide (pay.order_id = order.id)) =
        (st.payments.find? (fun pay => decide (pay.order_id = order.id))).map
          (fun pay =>
            { pay with payment_status := .CANCELLED, payment_gateway_data := none }) := by
  refine ⟨{ st with
      orders := saveOrder st.orders
        { order with payment_status := .CANCELLED, order_status := .CANCELLED },
      payments := cancelPaymentFirst st.payments order.id,
      products := restockLines st.products order.products }, ?_, ?_, ?_⟩
  · unfold UpdateOrderStatus
    rw [h1]
    dsimp only
    rw [if_neg (by simp [orderStatusList]), if_neg h3]
    try dsimp only
    rw [if_pos h2]
  · intro pid
    exact restockLines_find? order.products st.products pid
  · exact cancelPaymentFirst_find? st.payments order.id

/-- Witness for C3: cancelling a CONFIRMED PAID order. -/
theorem C3_cancel_paid_restocks_witness :
    ∃ st2,
      UpdateOrderStatus paidStore 1 .CANCELLED =
        .ok (st2,
          { paidOrder with payment_status := .CANCELLED, order_status := .CANCELLED }) ∧
      (∀ pid, st2.products.find? (fun p => decide (p.id = pid)) =
        (paidStore.products.find? (fun p => decide (p.id = pid))).map
          (fun p => { p with stock := p.stock + orderedQty paidOrder.products pid })) ∧
      st2.payments.find? (fun pay => decide (pay.order_id = paidOrder.id)) =
        (paidStore.payments.find? (fun pay => decide (pay.order_id = paidOrder.id))).map
          (fun pay =>
            { pay with payment_status := .CANCELLED, payment_gateway_data := none }) :=
  C3_cancel_paid_restocks paidStore 1 paidOrder rfl rfl (by decide)

end MediMart
